import Mathlib

/-!
Verification development for the cartridge_quickpay payment integration.

The definitions below are a shallow embedding of the Python source:

* `models.py`   — `QuickpayPayment` (here `Payment`), `QuickpayPayment.create_card_payment`,
  `QuickpayPayment.get_order_payment`, `QuickpayPayment.capture`, `QuickpayPayment.refund`,
  `QuickpayPayment.update_from_res`, `QuickpayPayment.update_from_quickpay`.
* `payment.py`  — `order_handler` (the shared order-advance routine) and the
  `quickpay_payment_handler` checkout entry point.
* `views.py`    — the `callback` view (the asynchronous notification reconciler).

Modelling conventions:

* Python `Decimal` amounts are embedded as `Dec` (exact decimal numbers,
  mantissa and exponent); Python's `int(amount * 100)` conversion truncates
  toward zero and is embedded as `pyIntMul100`.
* Database timestamps (`now()`) are an explicit `ts : Nat` parameter.
* Nullable columns are `Option` fields.  Python truthiness of a nullable integer
  (`if order.transaction_id:`) is `optIntTruthy`: `None` and `0` are falsy.
* A gateway HTTP call is an external effect.  Its response body is passed in as a
  `QPRes` value; a call that raises `ApiError` is passed in as `none` (for the
  refreshing `GET /payments/{id}`) or as `postOk = false` (for a mutating `POST`).
* `self.save()` / `order.save()` persist the in-memory object; each embedded
  operation returns the state as persisted when it finishes.
-/

namespace CartridgeQuickpay

/-- Python truthiness of a nullable integer field (`None` and `0` are falsy).
Used for `Order.transaction_id` and for the integer status settings
`QUICKPAY_ORDER_STATUS_AUTHORIZED` / `QUICKPAY_ORDER_STATUS_WAITING`. -/
def optIntTruthy : Option Int → Bool
  | none => false
  | some v => v != 0

/-- A Python `Decimal` amount: an exact decimal number `mant / 10 ^ exp`
(mantissa and decimal exponent, exactly `Decimal`'s representation). -/
structure Dec where
  mant : ℤ
  exp : ℕ
  deriving Repr, DecidableEq

/-- The rational value of a `Dec` (used only to state specification-level facts). -/
def Dec.toRat (d : Dec) : ℚ := (d.mant : ℚ) / (10 : ℚ) ^ d.exp

/-- Python `int(amount * 100)` for a `Decimal` amount: `amount * 100` is the exact
decimal `mant * 100 / 10 ^ exp`, and `int(...)` truncates toward zero. -/
def pyIntMul100 (d : Dec) : ℤ := (d.mant * 100).tdiv ((10 : ℤ) ^ d.exp)

/-- One entry of the `operations` list of a QuickPay payment response
(`models.py`, `update_from_res`, the `last_op` fields). -/
structure QPOp where
  qp_status_code : String
  qp_status_msg : String
  aq_status_code : String
  aq_status_msg : String
  deriving Repr, DecidableEq

/-- A QuickPay payment payload as consumed by `QuickpayPayment.update_from_res`:
either the body of a gateway response or the JSON body of a callback.
`balance = none` models a payload without a `balance` key (the code reads it with
`res.get('balance', 0)`); `metadata_last4 = none` models a payload without
`metadata.last4`. -/
structure QPRes where
  id : Int
  accepted : Bool
  test_mode : Bool
  type : Option String
  text_on_statement : Option String
  acquirer : Option String
  state : Option String
  balance : Option Int
  metadata_last4 : Option String
  operations : List QPOp
  deriving Repr, DecidableEq

/-- `QuickpayPayment` (`models.py`).  `id` is the database primary key,
`orderId` the owning order's primary key. -/
structure Payment where
  id : Nat
  orderId : Nat
  requested_amount : Int
  requested_currency : String
  card_last4 : String
  qp_id : Option Int
  accepted : Bool
  test_mode : Bool
  type : Option String
  text_on_statement : Option String
  acquirer : Option String
  state : Option String
  balance : Option Int
  last_qp_status : Option String
  last_qp_status_msg : Option String
  last_aq_status : Option String
  last_aq_status_msg : Option String
  accepted_date : Option Nat
  captured_date : Option Nat
  deriving Repr, DecidableEq

/-- `QuickpayPayment.update_from_res` (`models.py` lines 208-233).
Copies the payload fields onto the record; if the payload is accepted it stamps
`accepted_date` (when unset) and, for state `"processed"`, `captured_date`
(when unset).  Does not save. -/
def update_from_res (p : Payment) (res : QPRes) (ts : Nat) : Payment :=
  let last4 := res.metadata_last4.getD p.card_last4
  { p with
    qp_id := some res.id
    accepted := res.accepted
    test_mode := res.test_mode
    type := res.type
    text_on_statement := some (res.text_on_statement.getD "")
    acquirer := res.acquirer
    state := res.state
    balance := some (res.balance.getD 0)
    card_last4 := if last4 = "" then "9999" else last4
    last_qp_status := match res.operations.getLast? with
      | some op => some op.qp_status_code
      | none => p.last_qp_status
    last_qp_status_msg := match res.operations.getLast? with
      | some op => some op.qp_status_msg
      | none => p.last_qp_status_msg
    last_aq_status := match res.operations.getLast? with
      | some op => some op.aq_status_code
      | none => p.last_aq_status
    last_aq_status_msg := match res.operations.getLast? with
      | some op => some op.aq_status_msg
      | none => p.last_aq_status_msg
    accepted_date := if res.accepted && p.accepted_date.isNone then some ts else p.accepted_date
    captured_date :=
      if res.accepted && (res.state == some "processed") && p.captured_date.isNone then some ts
      else p.captured_date }

/-- The persisted `QuickpayPayment` table.  `nextId` is the next primary key the
database will assign. -/
structure PayDB where
  payments : List Payment
  nextId : Nat
  deriving Repr, DecidableEq

/-- `cls.objects.filter(order=order, accepted=True)` is non-empty
(`create_card_payment`'s already-paid guard). -/
def hasAcceptedPayment (db : PayDB) (orderId : Nat) : Bool :=
  db.payments.any (fun p => p.orderId == orderId && p.accepted)

/-- Number of accepted attempts of one order (used to state the
at-most-one-accepted invariant). -/
def acceptedCount (db : PayDB) (orderId : Nat) : Nat :=
  (db.payments.filter (fun p => p.orderId == orderId && p.accepted)).length

/-- The row `cls.objects.create(...)` inserts in `create_card_payment`:
amount converted by `int(amount * 100)`, state `"new"`, model defaults
(`accepted=False`, `test_mode=True`) for the rest. -/
def newPayment (id orderId : Nat) (amount : Dec) (currency last4 : String) : Payment :=
  { id := id
    orderId := orderId
    requested_amount := pyIntMul100 amount
    requested_currency := currency
    card_last4 := last4
    qp_id := none
    accepted := false
    test_mode := true
    type := none
    text_on_statement := none
    acquirer := none
    state := some "new"
    balance := none
    last_qp_status := none
    last_qp_status_msg := none
    last_aq_status := none
    last_aq_status_msg := none
    accepted_date := none
    captured_date := none }

/-- `CheckoutError` outcomes raised by the embedded operations. -/
inductive CheckoutErr
  /-- `CheckoutError("Order already paid!")` in `create_card_payment`. -/
  | alreadyPaid
  /-- `CheckoutError(_("Payment information invalid"))` on `ApiError` at authorize. -/
  | invalidPayment
  /-- `CheckoutError('Test card - cannot complete payment!')`. -/
  | testCard
  /-- `CheckoutError('Payment rejected by QuickPay or acquirer: ...')`. -/
  | rejected
  deriving Repr, DecidableEq

/-- `QuickpayPayment.create_card_payment` (`models.py` lines 90-108).
Raises `CheckoutError` (and inserts nothing) when the order already has an
accepted attempt; otherwise inserts a fresh `"new"` attempt. -/
def create_card_payment (db : PayDB) (orderId : Nat) (amount : Dec) (currency last4 : String) :
    Except CheckoutErr (Payment × PayDB) :=
  if hasAcceptedPayment db orderId then .error .alreadyPaid
  else
    let p := newPayment db.nextId orderId amount currency last4
    .ok (p, { payments := db.payments ++ [p], nextId := db.nextId + 1 })

/-- Persist `f p` over the payment row with primary key `pid`
(`payment.save()` after mutating the in-memory instance). -/
def saveAt (db : PayDB) (pid : Nat) (f : Payment → Payment) : PayDB :=
  { db with payments := db.payments.map (fun p => if p.id == pid then f p else p) }

/-- States of the payment table reachable through the code's operations:

* `create`: a `create_card_payment` call that succeeded (checkout entry points
  `quickpay_payment_handler`, `get_quickpay_link`, `start_subscription`);
* `update`: `p.update_from_res(res); p.save()` applied to one stored row with an
  externally supplied gateway/callback payload (the authorize branch of
  `quickpay_payment_handler`, the refresh in `capture`/`refund`/
  `update_from_quickpay`, and `update_payment` in the `callback` view). -/
inductive Reach : PayDB → Prop
  | init : Reach { payments := [], nextId := 1 }
  | create (db : PayDB) (orderId : Nat) (amount : Dec) (currency last4 : String)
      (p : Payment) (db' : PayDB) :
      Reach db → create_card_payment db orderId amount currency last4 = .ok (p, db') → Reach db'
  | update (db : PayDB) (pid : Nat) (res : QPRes) (ts : Nat) :
      Reach db → Reach (saveAt db pid (fun p => update_from_res p res ts))

/-- `QuickpayPayment.update_from_quickpay` (`models.py` lines 195-206): refresh the
record from `GET /payments/{id}`.  A record without a gateway id is left alone;
`r = none` models an `ApiError` from the gateway (logged, record left alone). -/
def applyRefresh (p : Payment) (r : Option QPRes) (ts : Nat) : Payment :=
  if p.qp_id.isNone then p
  else
    match r with
    | none => p
    | some res => update_from_res p res ts

/-- Result of `QuickpayPayment.capture`: the record as persisted by the final
`self.save()`, the returned boolean, and the `amount` sent with
`POST /payments/{id}/capture`. -/
structure CapResult where
  saved : Payment
  success : Bool
  sent : Int
  deriving Repr, DecidableEq

/-- The `int_amount` computation of `capture`: `min(self.requested_amount,
int(amount * 100))` for an explicit amount, the full requested amount otherwise. -/
def captureAmount (p1 : Payment) (amount : Option Dec) : Int :=
  match amount with
  | some a => min p1.requested_amount (pyIntMul100 a)
  | none => p1.requested_amount

/-- `QuickpayPayment.capture` (`models.py` lines 132-161).
`r1` is the gateway's response to the initial refreshing `GET` (`none` = `ApiError`),
`postOk` whether `POST /payments/{id}/capture` succeeded, `r2` the response to the
refreshing `GET` after a successful capture.  On a gateway `POST` error the code
logs, skips the mutation, and returns `False`; `self.save()` runs in all cases. -/
def capture (p : Payment) (amount : Option Dec) (r1 : Option QPRes) (postOk : Bool)
    (r2 : Option QPRes) (ts : Nat) : CapResult :=
  let p1 := applyRefresh p r1 ts
  let int_amount := captureAmount p1 amount
  if postOk then
    let p2 := applyRefresh { p1 with captured_date := some ts } r2 ts
    ⟨p2, true, int_amount⟩
  else
    ⟨p1, false, int_amount⟩

/-- A Python exception escaping `refund`: `min(None, int)` raises `TypeError`
when `self.balance` is `NULL` and an explicit amount is given. -/
inductive PyErr
  | typeError
  deriving Repr, DecidableEq

/-- Result of `QuickpayPayment.refund`: the record as persisted by the final
`self.save()`, the returned boolean, and the `amount` sent with
`POST /payments/{id}/refund`. -/
structure RefResult where
  saved : Payment
  success : Bool
  sent : Option Int
  deriving Repr, DecidableEq

/-- `QuickpayPayment.refund` (`models.py` lines 163-193).
Same gateway parameters as `capture`.  The refund amount defaults to the current
(refreshed) `balance`; after a successful refund the record is refreshed again and
`captured_date` is cleared when the refreshed balance is `0`. -/
def refund (p : Payment) (amount : Option Dec) (r1 : Option QPRes) (postOk : Bool)
    (r2 : Option QPRes) (ts : Nat) : Except PyErr RefResult :=
  let p1 := applyRefresh p r1 ts
  match amount with
  | some a =>
    match p1.balance with
    | none => .error .typeError
    | some b =>
      let int_amount := min b (pyIntMul100 a)
      if postOk then
        let p2 := applyRefresh p1 r2 ts
        let p3 := if p2.balance == some 0 then { p2 with captured_date := none } else p2
        .ok ⟨p3, true, some int_amount⟩
      else
        .ok ⟨p1, false, some int_amount⟩
  | none =>
    let int_amount := p1.balance
    if postOk then
      let p2 := applyRefresh p1 r2 ts
      let p3 := if p2.balance == some 0 then { p2 with captured_date := none } else p2
      .ok ⟨p3, true, int_amount⟩
    else
      .ok ⟨p1, false, int_amount⟩

/-- The order row as seen by this package: integer status enum and the nullable
`transaction_id` column (`data['id']`, an integer gateway payment id, is written
into it by the callback). -/
structure OrderRec where
  pk : Nat
  status : Int
  transaction_id : Option Int
  deriving Repr, DecidableEq

/-- The two order-status settings read by `order_handler`
(`QUICKPAY_ORDER_STATUS_AUTHORIZED`, `QUICKPAY_ORDER_STATUS_WAITING`);
`none` models an absent setting (`getattr(settings, ..., None)`). -/
structure OHSettings where
  status_authorized : Option Int
  status_waiting : Option Int
  deriving Repr, DecidableEq

/-- The notifications `order_handler` can emit: the `order_authorized`,
`order_captured` and `order_completed` signals of `payment.py`. -/
inductive Sig
  | authorized
  | captured
  | completed
  deriving Repr, DecidableEq

/-- Python `payment and payment.is_captured` for the optional `payment` argument. -/
def pyIsCaptured : Option Payment → Bool
  | some p => p.captured_date.isSome
  | none => false

/-- First half of `order_handler` (`payment.py` lines 401-424): the authorize
transition under the row lock.  `memTid` is `order.transaction_id` as read from the
caller's in-memory instance before the re-read; `o` is the row re-read (and locked)
from the database. -/
def oh_authPhase (memTid : Option Int) (o : OrderRec) (payment : Option Payment)
    (s : OHSettings) : OrderRec × List Sig :=
  if (optIntTruthy s.status_authorized && decide (o.status < s.status_authorized.getD 0))
      || !(optIntTruthy o.transaction_id) then
    let o1 := if optIntTruthy s.status_authorized
      then { o with status := s.status_authorized.getD 0 } else o
    let o2 := if optIntTruthy memTid then { o1 with transaction_id := memTid } else o1
    (o2,
      if optIntTruthy o2.transaction_id then
        [if pyIsCaptured payment then Sig.captured else Sig.authorized]
      else [])
  else
    (o, [])

/-- Second half of `order_handler` (`payment.py` lines 426-435): with a live browser
request, advance to the waiting status, run `order.complete(request)` and emit
`order_completed`. -/
def oh_completePhase (hasRequest : Bool) (o : OrderRec) (sigs : List Sig)
    (s : OHSettings) : OrderRec × List Sig :=
  if hasRequest
      && (optIntTruthy s.status_waiting && decide (o.status < s.status_waiting.getD 0)) then
    ({ o with status := s.status_waiting.getD 0 }, sigs ++ [Sig.completed])
  else
    (o, sigs)

/-- `order_handler` (`payment.py` lines 390-435): the shared order-advance routine.
`hasRequest` is whether `request is not None` (browser success hit vs. async
callback); `memOrder` the caller's in-memory order instance, `dbOrder` the
authoritative row that the `select_for_update` re-read returns.  Returns the order
row as persisted when the transaction commits, together with the emitted signals. -/
def order_handler (hasRequest : Bool) (memOrder dbOrder : OrderRec)
    (payment : Option Payment) (s : OHSettings) : OrderRec × List Sig :=
  let r := oh_authPhase memOrder.transaction_id dbOrder payment s
  oh_completePhase hasRequest r.1 r.2 s

/-- The `callback` view's accepted branch before calling `order_handler`
(`views.py` lines 318-330): assign `order.transaction_id = data['id']` on the
in-memory instance, then run the advance routine without a request. -/
def callbackAdvance (qpId : Int) (payment : Option Payment) (s : OHSettings)
    (db : OrderRec) : OrderRec × List Sig :=
  order_handler false { db with transaction_id := some qpId } db payment s

/-- The `success` view's reconciliation attempt (`views.py` lines 220-249): the
order is read fresh from the database and `order_handler` runs with the live
request and no payment argument. -/
def successAdvance (s : OHSettings) (db : OrderRec) : OrderRec × List Sig :=
  order_handler true db db none s

/-- Number of authorize-type notifications (`order_authorized` or
`order_captured`) in an emitted signal list. -/
def authSigCount (l : List Sig) : Nat :=
  l.countP (fun g => g == Sig.authorized || g == Sig.captured)

/-- `re.sub('_\d+', '', s)` on a character list, fuelled for structural
recursion (the fuel is the list's length, enough because every step consumes at
least one character): every underscore followed by a maximal non-empty run of
digits is deleted (`views.py` line 289, stripping the attempt suffix from the
gateway's echoed order id). -/
def stripUD : Nat → List Char → List Char
  | 0, _ => []
  | _ + 1, [] => []
  | fuel + 1, '_' :: c :: rest =>
    if c.isDigit then stripUD fuel ((c :: rest).dropWhile Char.isDigit)
    else '_' :: stripUD fuel (c :: rest)
  | fuel + 1, c :: rest => c :: stripUD fuel rest

/-- `order_id = re.sub('_\d+', '', order_id_payment_id_string)` on strings. -/
def stripOrderSuffix (s : String) : String := ⟨stripUD s.data.length s.data⟩

/-- `Order.objects.filter(pk=order_id)[0]` for a numeric-string id: the order
whose primary key prints as the given string, if any. -/
def findOrder (orders : List OrderRec) (pkStr : String) : Option OrderRec :=
  orders.find? (fun o => toString o.pk == pkStr)

/-- `order.quickpaypayment_set.all().order_by('-id')[:1]`: the stored attempt
with the greatest primary key, if any. -/
def latestIn : List Payment → Option Payment
  | [] => none
  | p :: rest =>
    match latestIn rest with
    | none => some p
    | some q => if q.id ≤ p.id then some p else some q

/-- `QuickpayPayment.get_order_payment` (`models.py` lines 110-117): the latest
attempt of the order (the row is also locked; locking is implicit in the
sequential model). -/
def get_order_payment (db : PayDB) (orderPk : Nat) : Option Payment :=
  latestIn (db.payments.filter (fun p => p.orderId == orderPk))

/-- Persist a mutated payment row over its primary key (`payment.save()`). -/
def savePayment (db : PayDB) (p : Payment) : PayDB :=
  { db with payments := db.payments.map (fun x => if x.id == p.id then p else x) }

/-- Persist a mutated order row over its primary key (`order.save()`). -/
def saveOrder (orders : List OrderRec) (o : OrderRec) : List OrderRec :=
  orders.map (fun x => if x.pk == o.pk then o else x)

/-- The shop database visible to the callback view: the order table and the
payment-attempt table. -/
structure ShopDB where
  orders : List OrderRec
  pay : PayDB
  deriving Repr, DecidableEq

/-- The parsed JSON body of a callback: the gateway's echoed `order_id` string
(shaped `"{order_pk}_{attempt_id}"` for payments this shop created) plus the
payment payload fields consumed by `update_from_res` (`data['state']`,
`data['accepted']`, `data['type']`, `data['id']` are `res.state`, `res.accepted`,
`res.type`, `res.id`). -/
structure CallbackData where
  order_id : String
  res : QPRes
  deriving Repr, DecidableEq

/-- The HTTP responses the callback view produces: `ok` is
`HttpResponse("OK")` (status 200, body `"OK"`), `badRequest` is
`HttpResponseBadRequest()` (status 400). -/
inductive CbResponse
  | ok
  | badRequest
  deriving Repr, DecidableEq

/-- Outcome of one callback request: response, the database as committed, the
signals emitted by `order_handler`, and whether the subscription branch started a
recurring capture (`capture_subscription_order`, whose local effect is a gateway
round trip finished by a later callback). -/
structure CbResult where
  response : CbResponse
  db : ShopDB
  sigs : List Sig
  subCapture : Bool
  deriving Repr, DecidableEq

/-- The state filter of the callback view (`views.py` lines 279-284): only
`processed`, `active`, `rejected` — and `pending` while auto-capture is
disabled — are processed further. -/
def actionableState (state : Option String) (auto_capture : Bool) : Bool :=
  state == some "processed" || state == some "active" || state == some "rejected"
    || (!auto_capture && state == some "pending")

/-- The `callback` view (`views.py` lines 258-334).

Arguments: the database, the parsed body `data`, the raw request body, the
`Quickpay-Checksum-Sha256` header, the HMAC-SHA256 function `signFn` (external:
`hmac.new(key, body, sha256).hexdigest()`, embedded as an opaque parameter applied
to the raw body and the private key), the order-currency private key, the
`QUICKPAY_AUTO_CAPTURE` setting, whether the optional subscription package is
installed, the order-status settings and the timestamp.

Steps, in source order: state filter (acknowledge and skip), order resolution from
the stripped `order_id` (acknowledge and skip when unknown), checksum comparison
(400 on mismatch), then the `rejected` / `Subscription` / `accepted` branches. -/
def callback (db : ShopDB) (data : CallbackData) (rawBody : String) (header : String)
    (signFn : String → String → String) (privateKey : String)
    (auto_capture subscriptionEnabled : Bool) (s : OHSettings) (ts : Nat) : CbResult :=
  if !(actionableState data.res.state auto_capture) then
    ⟨.ok, db, [], false⟩
  else
    match findOrder db.orders (stripOrderSuffix data.order_id) with
    | none => ⟨.ok, db, [], false⟩
    | some order =>
      let checksum := signFn rawBody privateKey
      if header != checksum then
        ⟨.badRequest, db, [], false⟩
      else if data.res.state == some "rejected" then
        match get_order_payment db.pay order.pk with
        | some p => ⟨.ok, { db with pay := savePayment db.pay (update_from_res p data.res ts) }, [], false⟩
        | none => ⟨.ok, db, [], false⟩
      else if data.res.type == some "Subscription" && subscriptionEnabled then
        ⟨.ok, db, [], true⟩
      else if data.res.accepted then
        let payment? := (get_order_payment db.pay order.pk).map
          (fun p => update_from_res p data.res ts)
        let pay' := match payment? with
          | some p => savePayment db.pay p
          | none => db.pay
        let r := order_handler false { order with transaction_id := some data.res.id }
          order payment? s
        ⟨.ok, { orders := saveOrder db.orders r.1, pay := pay' }, r.2, false⟩
      else
        ⟨.ok, db, [], false⟩

instance {ε α : Type} [DecidableEq ε] [DecidableEq α] : DecidableEq (Except ε α) := fun a b =>
  match a, b with
  | .ok x, .ok y =>
    if h : x = y then .isTrue (by rw [h]) else .isFalse (by simp [h])
  | .error x, .error y =>
    if h : x = y then .isTrue (by rw [h]) else .isFalse (by simp [h])
  | .ok _, .error _ => .isFalse (by simp)
  | .error _, .ok _ => .isFalse (by simp)

/-- Outcome of `quickpay_payment_handler`: the payment table and order row as
persisted when control leaves the handler, and the returned gateway id or the
raised `CheckoutError`. -/
structure HandlerResult where
  db : PayDB
  savedOrder : OrderRec
  result : Except CheckoutErr Int
  deriving Repr, DecidableEq

/-- `quickpay_payment_handler` (`payment.py` lines 88-153): the direct
(non-hosted) card authorization path.

`authRes = none` models `ApiError` from `POST /payments/{id}/authorize`
(re-raised as a user-facing `CheckoutError` before any order mutation).  On a
gateway response the payment is updated and saved, the order status is set to
`SHOP_ORDER_PAID` and saved, and only then — when `QUICKPAY_TESTMODE` is
disabled — a test-mode or non-accepted response raises a `CheckoutError`, with
no rollback of the saves.  The gateway's `POST /payments` (which only yields the
id used in the authorize URL) has no local effect and is not modelled. -/
def quickpay_payment_handler (db : PayDB) (order : OrderRec) (amount : Dec)
    (currency card_last4 : String) (authRes : Option QPRes) (testmode : Bool)
    (shopOrderPaid : Int) (ts : Nat) : HandlerResult :=
  match create_card_payment db order.pk amount currency card_last4 with
  | .error e => ⟨db, order, .error e⟩
  | .ok (payment, db1) =>
    match authRes with
    | none => ⟨db1, order, .error .invalidPayment⟩
    | some res =>
      let db2 := savePayment db1 (update_from_res payment res ts)
      let order' := { order with status := shopOrderPaid }
      if !testmode && res.test_mode then ⟨db2, order', .error .testCard⟩
      else if !testmode && !res.accepted then ⟨db2, order', .error .rejected⟩
      else ⟨db2, order', .ok res.id⟩

/-- The spec's words for the amount conversion in `create_attempt`
(`round(amount * 100)`), stated for comparison with the code's `int(amount * 100)`
(`pyIntMul100`).  `round` is rounding to the nearest integer. -/
def spec_round_minor_units (amount : Dec) : ℤ := round (amount.toRat * 100)

/-- An accepted, autocaptured gateway payload (`accepted`, state `"processed"`),
used as concrete input in several scenarios. -/
def accRes : QPRes :=
  ⟨11, true, false, some "Payment", some "", some "nets", some "processed", some 10000, none, []⟩

/-- Two not-yet-accepted attempts of order 1, as produced by two successful
`create_card_payment` calls (e.g. a double-submitted checkout form). -/
def dbTwoNew : PayDB :=
  ⟨[newPayment 1 1 ⟨10000, 2⟩ "DKK" "1234", newPayment 2 1 ⟨10000, 2⟩ "DKK" "1234"], 3⟩

/-- `dbTwoNew` after both attempts were updated from accepted gateway payloads
(each handler authorizing its own attempt). -/
def dbTwoAccepted : PayDB :=
  saveAt (saveAt dbTwoNew 1 (fun p => update_from_res p accRes 5)) 2
    (fun p => update_from_res p accRes 6)

/-- A captured, accepted payment with a known gateway id and a positive balance
(concrete scenario input for the capture/refund operations). -/
def pBal : Payment :=
  { newPayment 1 1 ⟨10000, 2⟩ "DKK" "1234" with
    qp_id := some 3
    accepted := true
    balance := some 500
    accepted_date := some 1
    captured_date := some 2 }

/-- A fully-refunded gateway payload: accepted, balance back to `0`. -/
def zeroRes : QPRes :=
  ⟨11, true, false, some "Payment", some "", some "nets", some "refunded", some 0, none, []⟩

/-- The result of a concrete successful full refund of `pBal` (scenario input for
witnesses). -/
def refundRes : RefResult :=
  ((refund pBal none none true (some zeroRes) 9).toOption).getD ⟨pBal, false, none⟩

/-- An order table holding the single fresh order 7 (scenario input). -/
def ordersOne : List OrderRec := [⟨7, 1, none⟩]

/-- Two attempts (primary keys 1 and 2) of order 7, neither accepted
(scenario input). -/
def payTwo : PayDB :=
  ⟨[newPayment 1 7 ⟨10000, 2⟩ "DKK" "1234", newPayment 2 7 ⟨10000, 2⟩ "DKK" "5678"], 3⟩

/-- A callback body whose echoed order identifier `"7_000001"` embeds attempt 1
of order 7; the payload is accepted with state `"processed"` (scenario input). -/
def cbDataAtt1 : CallbackData :=
  ⟨"7_000001",
    ⟨42, true, false, some "Payment", some "", some "nets", some "processed", some 10000, none, []⟩⟩

/-- A callback body with the non-actionable state `"new"` and a tampered
checksum context (scenario input). -/
def cbDataNew : CallbackData :=
  ⟨"7_000001",
    ⟨42, true, false, some "Payment", some "", some "nets", some "new", some 0, none, []⟩⟩

/-- A toy keyed signing function standing in for the external HMAC-SHA256 in
concrete scenarios (the code's `sign` delegates to `hmac`/`hashlib`). -/
def toySign (body key : String) : String := body ++ "|" ++ key

/-- An accepted authorize payload flagged `test_mode` — a test-card payment
(scenario input). -/
def testModeRes : QPRes :=
  ⟨11, true, true, some "Payment", some "", some "nets", some "processed", some 10000, none, []⟩

/- ------------------------------------------------------------------ -/
/- Helper lemmas                                                      -/
/- ------------------------------------------------------------------ -/

theorem update_from_res_requested_amount (p : Payment) (res : QPRes) (ts : Nat) :
    (update_from_res p res ts).requested_amount = p.requested_amount := rfl

theorem update_from_res_pk (p : Payment) (res : QPRes) (ts : Nat) :
    (update_from_res p res ts).id = p.id := rfl

theorem applyRefresh_requested_amount (p : Payment) (r : Option QPRes) (ts : Nat) :
    (applyRefresh p r ts).requested_amount = p.requested_amount := by
  unfold applyRefresh
  split
  · rfl
  · cases r
    · rfl
    · exact update_from_res_requested_amount ..

theorem update_from_res_keeps_captured (p : Payment) (res : QPRes) (ts : Nat)
    (h : p.captured_date.isSome = true) :
    (update_from_res p res ts).captured_date.isSome = true := by
  have hc : (update_from_res p res ts).captured_date
      = if res.accepted && (res.state == some "processed") && p.captured_date.isNone
        then some ts else p.captured_date := rfl
  rw [hc]
  split
  · rfl
  · exact h

theorem applyRefresh_keeps_captured (p : Payment) (r : Option QPRes) (ts : Nat)
    (h : p.captured_date.isSome = true) :
    (applyRefresh p r ts).captured_date.isSome = true := by
  unfold applyRefresh
  split
  · exact h
  · cases r
    · exact h
    · exact update_from_res_keeps_captured _ _ _ h

theorem list_map_self {α : Type} (l : List α) (f : α → α) (h : ∀ x ∈ l, f x = x) :
    l.map f = l := by
  induction l with
  | nil => rfl
  | cons a t ih =>
    simp only [List.map_cons, List.cons.injEq]
    exact ⟨h a (List.mem_cons_self a t), ih (fun x hx => h x (List.mem_cons_of_mem a hx))⟩

theorem latestIn_eq_none (l : List Payment) (h : latestIn l = none) : l = [] := by
  cases l with
  | nil => rfl
  | cons p t =>
    exfalso
    unfold latestIn at h
    cases ht : latestIn t <;> rw [ht] at h <;> dsimp only at h
    · cases h
    · split at h <;> cases h

theorem latestIn_mem : ∀ (l : List Payment) (q : Payment), latestIn l = some q → q ∈ l := by
  intro l
  induction l with
  | nil => intro q h; cases h
  | cons p t ih =>
    intro q h
    unfold latestIn at h
    cases ht : latestIn t with
    | none =>
      rw [ht] at h
      dsimp only at h
      cases Option.some.inj h
      exact List.mem_cons_self ..
    | some r =>
      rw [ht] at h
      dsimp only at h
      by_cases hle : r.id ≤ p.id
      · rw [if_pos hle] at h
        cases Option.some.inj h
        exact List.mem_cons_self ..
      · rw [if_neg hle] at h
        cases Option.some.inj h
        exact List.mem_cons_of_mem _ (ih _ ht)

theorem latestIn_ge : ∀ (l : List Payment) (q : Payment), latestIn l = some q →
    ∀ p ∈ l, p.id ≤ q.id := by
  intro l
  induction l with
  | nil => intro q _ p hp; cases hp
  | cons a t ih =>
    intro q h p hp
    unfold latestIn at h
    cases ht : latestIn t with
    | none =>
      rw [ht] at h
      dsimp only at h
      cases Option.some.inj h
      have hte : t = [] := latestIn_eq_none t ht
      subst hte
      rcases List.mem_cons.mp hp with rfl | hmem
      · exact le_refl _
      · cases hmem
    | some r =>
      rw [ht] at h
      dsimp only at h
      have hpr : ∀ x ∈ t, x.id ≤ r.id := ih r ht
      by_cases hle : r.id ≤ a.id
      · rw [if_pos hle] at h
        cases Option.some.inj h
        rcases List.mem_cons.mp hp with rfl | hmem
        · exact le_refl _
        · exact le_trans (hpr p hmem) hle
      · rw [if_neg hle] at h
        cases Option.some.inj h
        rcases List.mem_cons.mp hp with rfl | hmem
        · omega
        · exact hpr p hmem

theorem oh_completePhase_noRequest (o : OrderRec) (sigs : List Sig) (s : OHSettings) :
    oh_completePhase false o sigs s = (o, sigs) := by
  unfold oh_completePhase
  simp

theorem oh_completePhase_shape (hasRequest : Bool) (o : OrderRec) (sigs : List Sig)
    (s : OHSettings) :
    ((oh_completePhase hasRequest o sigs s).2 = sigs ∨
      (oh_completePhase hasRequest o sigs s).2 = sigs ++ [Sig.completed]) ∧
    (oh_completePhase hasRequest o sigs s).1.transaction_id = o.transaction_id := by
  unfold oh_completePhase
  split
  · exact ⟨Or.inr rfl, rfl⟩
  · exact ⟨Or.inl rfl, rfl⟩

/-- The authorize phase entered from the callback (in-memory transaction id set,
database row not yet authorized): it stamps the authorized status, persists the
transaction id, and emits one authorize-type signal. -/
theorem oh_authPhase_cb (o : OrderRec) (payment : Option Payment) (s : OHSettings)
    (a qpId : Int) (ha : s.status_authorized = some a) (ha0 : a ≠ 0) (hqp : qpId ≠ 0)
    (htid : o.transaction_id = none) :
    oh_authPhase (some qpId) o payment s =
      (⟨o.pk, a, some qpId⟩,
        [if pyIsCaptured payment then Sig.captured else Sig.authorized]) := by
  have hA : optIntTruthy (some a) = true := by simp [optIntTruthy, ha0]
  have hQ : optIntTruthy (some qpId) = true := by simp [optIntTruthy, hqp]
  unfold oh_authPhase
  rw [ha, htid]
  simp [hA, hQ, optIntTruthy, ha0, hqp]

/-- The authorize phase entered from the browser success hit on a fresh order
(no transaction id anywhere): it stamps the authorized status but persists no
transaction id and emits no signal. -/
theorem oh_authPhase_fresh_success (o : OrderRec) (s : OHSettings) (a : Int)
    (ha : s.status_authorized = some a) (ha0 : a ≠ 0) (htid : o.transaction_id = none) :
    oh_authPhase o.transaction_id o none s = (⟨o.pk, a, none⟩, []) := by
  have hA : optIntTruthy (some a) = true := by simp [optIntTruthy, ha0]
  unfold oh_authPhase
  rw [ha, htid]
  simp [hA, optIntTruthy, htid, ha0]

/-- The authorize phase on a row that is already authorized (status at the
threshold or above, transaction id truthy): a strict no-op. -/
theorem oh_authPhase_already (mt : Option Int) (o : OrderRec) (payment : Option Payment)
    (s : OHSettings) (a : Int) (ha : s.status_authorized = some a)
    (hstat : ¬(o.status < a)) (htid : optIntTruthy o.transaction_id = true) :
    oh_authPhase mt o payment s = (o, []) := by
  unfold oh_authPhase
  rw [ha, htid]
  simp [hstat]

/- ------------------------------------------------------------------ -/
/- Claim theorems                                                     -/
/- ------------------------------------------------------------------ -/

/-- C6: `capture(attempt, amount?)` sends the gateway a capture amount equal to
`min(requested_amount, int(amount * 100))` when an amount is given, and exactly
`requested_amount` when no amount is given; in every case (in particular for an
amount twice the requested one) the sent amount is at most `requested_amount`. -/
theorem C6_capture_amount_clamped (p : Payment) (a : Dec) (amount : Option Dec)
    (r1 : Option QPRes) (postOk : Bool) (r2 : Option QPRes) (ts : Nat) :
    (capture p (some a) r1 postOk r2 ts).sent = min p.requested_amount (pyIntMul100 a) ∧
    (capture p none r1 postOk r2 ts).sent = p.requested_amount ∧
    (capture p amount r1 postOk r2 ts).sent ≤ p.requested_amount := by
  have hreq := applyRefresh_requested_amount p r1 ts
  refine ⟨?_, ?_, ?_⟩
  · cases postOk <;> simp [capture, captureAmount, hreq]
  · cases postOk <;> simp [capture, captureAmount, hreq]
  · cases amount with
    | none => cases postOk <;> simp [capture, captureAmount, hreq]
    | some b =>
      cases postOk <;> simp only [capture, captureAmount, hreq] <;> exact min_le_left _ _

/-- C7: the refund amount defaults to the current (refreshed) balance; after a
successful refund the captured timestamp is cleared exactly when the refreshed
balance is zero, and a refund that leaves a positive balance leaves a set
captured timestamp set. -/
theorem C7_refund_default_and_captured_clear (p : Payment) (amount : Option Dec)
    (r1 r2 : Option QPRes) (postOk : Bool) (ts : Nat) :
    (∀ r, refund p none r1 postOk r2 ts = .ok r → r.sent = (applyRefresh p r1 ts).balance) ∧
    (∀ r, refund p amount r1 true r2 ts = .ok r →
      r.saved.captured_date =
        (if (applyRefresh (applyRefresh p r1 ts) r2 ts).balance = some 0 then none
         else (applyRefresh (applyRefresh p r1 ts) r2 ts).captured_date)) ∧
    (∀ r, refund p amount r1 true r2 ts = .ok r →
      p.captured_date.isSome = true →
      (applyRefresh (applyRefresh p r1 ts) r2 ts).balance ≠ some 0 →
      r.saved.captured_date.isSome = true) := by
  refine ⟨?_, ?_, ?_⟩
  · intro r h
    cases postOk <;> simp only [refund] at h <;> cases Except.ok.inj h <;> rfl
  · intro r h
    cases amount with
    | none =>
      simp only [refund] at h
      cases Except.ok.inj h
      by_cases hz : (applyRefresh (applyRefresh p r1 ts) r2 ts).balance = some 0
      · simp [hz]
      · simp [hz]
    | some a =>
      simp only [refund] at h
      cases hb : (applyRefresh p r1 ts).balance with
      | none => rw [hb] at h; cases h
      | some b =>
        rw [hb] at h
        dsimp only at h
        cases Except.ok.inj h
        by_cases hz : (applyRefresh (applyRefresh p r1 ts) r2 ts).balance = some 0
        · simp [hz]
        · simp [hz]
  · intro r h hcap hz
    have hc2 : (applyRefresh (applyRefresh p r1 ts) r2 ts).captured_date.isSome = true :=
      applyRefresh_keeps_captured _ _ _ (applyRefresh_keeps_captured _ _ _ hcap)
    cases amount with
    | none =>
      simp only [refund] at h
      cases Except.ok.inj h
      simp [hz, hc2]
    | some a =>
      simp only [refund] at h
      cases hb : (applyRefresh p r1 ts).balance with
      | none => rw [hb] at h; cases h
      | some b =>
        rw [hb] at h
        dsimp only at h
        cases Except.ok.inj h
        simp [hz, hc2]

/-- C7 witness: a concrete full refund of `pBal` whose refreshed balance is `0`
clears the captured timestamp. -/
theorem C7_witness : refundRes.saved.captured_date = none := by
  have h := (C7_refund_default_and_captured_clear pBal none none (some zeroRes) true 9).2.1
    refundRes (by decide)
  rw [h, if_pos (by decide : (applyRefresh (applyRefresh pBal none 9) (some zeroRes) 9).balance = some 0)]

/-- C8: a gateway HTTP error (`ApiError`) during the capture or refund `POST` is
absorbed: the operation returns `false` instead of raising, and the state
reached before the error (the refreshed record) is persisted by the final
`save()`; on success the refreshed post-operation state is persisted likewise. -/
theorem C8_gateway_error_absorbed (p : Payment) (amount : Option Dec) (a : Dec)
    (r1 r2 : Option QPRes) (ts : Nat) :
    (capture p amount r1 false r2 ts =
      ⟨applyRefresh p r1 ts, false, captureAmount (applyRefresh p r1 ts) amount⟩) ∧
    (capture p amount r1 true r2 ts =
      ⟨applyRefresh { applyRefresh p r1 ts with captured_date := some ts } r2 ts, true,
        captureAmount (applyRefresh p r1 ts) amount⟩) ∧
    (refund p none r1 false r2 ts = .ok ⟨applyRefresh p r1 ts, false, (applyRefresh p r1 ts).balance⟩) ∧
    (∀ b, (applyRefresh p r1 ts).balance = some b →
      refund p (some a) r1 false r2 ts =
        .ok ⟨applyRefresh p r1 ts, false, some (min b (pyIntMul100 a))⟩) := by
  refine ⟨by simp [capture], by simp [capture], by simp [refund], ?_⟩
  intro b hb
  simp [refund, hb]

/-- C8 witness: a concrete refund of `pBal` with a failing gateway `POST` returns
`false` and persists the pre-`POST` state. -/
theorem C8_witness :
    refund pBal (some ⟨1, 0⟩) none false none 0 =
      .ok ⟨applyRefresh pBal none 0, false, some (min 500 (pyIntMul100 ⟨1, 0⟩))⟩ :=
  (C8_gateway_error_absorbed pBal (some ⟨1, 0⟩) ⟨1, 0⟩ none none 0).2.2.2 500 (by decide)

/-- C9 counterexample: for the three-decimal amount `100.009` the code stores
`int(100.009 * 100) = 10000`, while `round(100.009 * 100) = 10001` — the stored
amount is the truncation, not the rounding the claim states. -/
theorem C9_counterexample :
    create_card_payment ⟨[], 1⟩ 1 ⟨100009, 3⟩ "DKK" "9999" =
      .ok (newPayment 1 1 ⟨100009, 3⟩ "DKK" "9999",
        ⟨[newPayment 1 1 ⟨100009, 3⟩ "DKK" "9999"], 2⟩) ∧
    (newPayment 1 1 ⟨100009, 3⟩ "DKK" "9999").requested_amount = 10000 ∧
    spec_round_minor_units ⟨100009, 3⟩ = 10001 := by
  refine ⟨by decide, by decide, ?_⟩
  unfold spec_round_minor_units Dec.toRat
  have h : ((100009 : ℤ) : ℚ) / (10 : ℚ) ^ (3 : ℕ) * 100 = (9 : ℚ) / 10 + (10000 : ℤ) := by
    norm_num
  rw [h, round_add_int, round_eq]
  norm_num

/-- C9 (amended): `create_attempt` stores the requested amount as
`int(amount * 100)` — truncation toward zero — which coincides with
`round(amount * 100)` whenever the amount has at most two decimals; an order
total of `100.00` (`⟨10000, 2⟩`) yields `requested_amount = 10000`, and the
given 3-letter currency (e.g. `"DKK"`) is stored as given. -/
theorem C9_minor_units (db : PayDB) (orderId : Nat) (amount : Dec) (currency last4 : String)
    (h : hasAcceptedPayment db orderId = false) :
    create_card_payment db orderId amount currency last4 =
      .ok (newPayment db.nextId orderId amount currency last4,
        ⟨db.payments ++ [newPayment db.nextId orderId amount currency last4], db.nextId + 1⟩) ∧
    (newPayment db.nextId orderId amount currency last4).requested_amount = pyIntMul100 amount ∧
    (newPayment db.nextId orderId amount currency last4).requested_currency = currency ∧
    (∀ k : ℤ, pyIntMul100 ⟨k, 2⟩ = k ∧ spec_round_minor_units ⟨k, 2⟩ = k) ∧
    pyIntMul100 ⟨10000, 2⟩ = 10000 := by
  refine ⟨?_, rfl, rfl, ?_, by decide⟩
  · unfold create_card_payment
    rw [h]
    rfl
  · intro k
    constructor
    · show (k * 100).tdiv ((10 : ℤ) ^ (2 : ℕ)) = k
      norm_num
    · unfold spec_round_minor_units Dec.toRat
      show round ((k : ℚ) / (10 : ℚ) ^ (2 : ℕ) * 100) = k
      have h2 : ((10 : ℚ) ^ (2 : ℕ)) = 100 := by norm_num
      rw [h2, div_mul_cancel₀ _ (by norm_num : (100 : ℚ) ≠ 0), round_intCast]

/-- C9 witness: creating an attempt for an order total of `100.00` DKK on an
empty table yields `requested_amount = 10000`, currency `"DKK"`. -/
theorem C9_witness :
    create_card_payment ⟨[], 1⟩ 1 ⟨10000, 2⟩ "DKK" "9999" =
      .ok (newPayment 1 1 ⟨10000, 2⟩ "DKK" "9999", ⟨[newPayment 1 1 ⟨10000, 2⟩ "DKK" "9999"], 2⟩) ∧
    (newPayment 1 1 ⟨10000, 2⟩ "DKK" "9999").requested_amount = 10000 := by
  have h := C9_minor_units ⟨[], 1⟩ 1 ⟨10000, 2⟩ "DKK" "9999" (by decide)
  exact ⟨h.1, by decide⟩

/-- C1 counterexample: a payment table with two accepted attempts for order 1 is
reachable — two `create_card_payment` calls succeed while neither attempt is
accepted yet (a double-submitted form), and each attempt is then updated from an
accepted gateway payload (`update_from_res` + `save`, as the authorize branch of
`quickpay_payment_handler` does for its own attempt).  The at-most-one-accepted
invariant therefore does not hold for all reachable states. -/
theorem C1_counterexample : Reach dbTwoAccepted ∧ acceptedCount dbTwoAccepted 1 = 2 := by
  refine ⟨?_, by decide⟩
  have h1 : Reach ⟨[newPayment 1 1 ⟨10000, 2⟩ "DKK" "1234"], 2⟩ :=
    Reach.create ⟨[], 1⟩ 1 ⟨10000, 2⟩ "DKK" "1234" (newPayment 1 1 ⟨10000, 2⟩ "DKK" "1234") _
      Reach.init (by decide)
  have h2 : Reach dbTwoNew :=
    Reach.create _ 1 ⟨10000, 2⟩ "DKK" "1234" (newPayment 2 1 ⟨10000, 2⟩ "DKK" "1234") _
      h1 (by decide)
  exact Reach.update _ 2 accRes 6 (Reach.update _ 1 accRes 5 h2)

/-- C1 (amended): `create_card_payment` for an order that already has an accepted
attempt raises `CheckoutError` (`AlreadyPaid`) and inserts no record, and a
freshly created attempt is never accepted — but the at-most-one-accepted
invariant is not maintained globally, because `update_from_res` can mark a
second pre-existing attempt accepted (see the counterexample). -/
theorem C1_create_attempt_guard (db : PayDB) (orderId : Nat) (amount : Dec)
    (currency last4 : String) :
    (hasAcceptedPayment db orderId = true →
      create_card_payment db orderId amount currency last4 = .error .alreadyPaid) ∧
    (hasAcceptedPayment db orderId = false →
      create_card_payment db orderId amount currency last4 =
        .ok (newPayment db.nextId orderId amount currency last4,
          ⟨db.payments ++ [newPayment db.nextId orderId amount currency last4], db.nextId + 1⟩) ∧
      (newPayment db.nextId orderId amount currency last4).accepted = false ∧
      (newPayment db.nextId orderId amount currency last4).state = some "new") := by
  constructor
  · intro h
    unfold create_card_payment
    rw [h]
    rfl
  · intro h
    refine ⟨?_, rfl, rfl⟩
    unfold create_card_payment
    rw [h]
    rfl

/-- C1 witness: on `dbTwoAccepted` (order 1 already accepted) a further
`create_card_payment` call fails with the already-paid `CheckoutError`. -/
theorem C1_witness :
    create_card_payment dbTwoAccepted 1 ⟨10000, 2⟩ "DKK" "1234" = .error .alreadyPaid :=
  (C1_create_attempt_guard dbTwoAccepted 1 ⟨10000, 2⟩ "DKK" "1234").1 (by decide)

/-- C2 counterexample: an order that is already authorized (status `2` = the
authorized threshold, `transaction_id` set) and is run through `order_handler`
again with a live browser request has its status advanced to the waiting
threshold `3` (and `order_completed` emitted) — the status does not stay
unchanged as the claim states, although no `order_authorized` is emitted. -/
theorem C2_counterexample :
    (order_handler true ⟨1, 2, some 5⟩ ⟨1, 2, some 5⟩ none ⟨some 2, some 3⟩).1.status ≠ 2 ∧
    (order_handler true ⟨1, 2, some 5⟩ ⟨1, 2, some 5⟩ none ⟨some 2, some 3⟩).2
      = [Sig.completed] := by
  decide

/-- C2 (amended): for an order that is already authorized (`transaction_id`
truthy and status at or above the authorized threshold), a repeated
`order_handler` invocation without a live browser request (the duplicate-callback
case) is a complete no-op — same row back, no signal; any invocation, browser
request or not, emits no `order_authorized`/`order_captured` and leaves
`transaction_id` unchanged (a browser-request invocation may still advance the
status to the waiting threshold and emit `order_completed`). -/
theorem C2_order_handler_idempotent (memOrder dbOrder : OrderRec)
    (payment : Option Payment) (s : OHSettings)
    (htid : optIntTruthy dbOrder.transaction_id = true)
    (hstatus : optIntTruthy s.status_authorized = true →
      s.status_authorized.getD 0 ≤ dbOrder.status) :
    order_handler false memOrder dbOrder payment s = (dbOrder, []) ∧
    (∀ (hasRequest : Bool) (memOrder2 : OrderRec),
      Sig.authorized ∉ (order_handler hasRequest memOrder2 dbOrder payment s).2 ∧
      Sig.captured ∉ (order_handler hasRequest memOrder2 dbOrder payment s).2 ∧
      (order_handler hasRequest memOrder2 dbOrder payment s).1.transaction_id
        = dbOrder.transaction_id) := by
  have hcond : ((optIntTruthy s.status_authorized
      && decide (dbOrder.status < s.status_authorized.getD 0))
      || !(optIntTruthy dbOrder.transaction_id)) = false := by
    rw [htid]
    cases hA : optIntTruthy s.status_authorized
    · simp
    · have hle := hstatus hA
      simp only [Bool.true_and, Bool.not_true, Bool.or_false]
      simp [not_lt, hle]
  have hauth : ∀ mt, oh_authPhase mt dbOrder payment s = (dbOrder, []) := by
    intro mt
    unfold oh_authPhase
    rw [hcond]
    rfl
  have hoh : ∀ (hasRequest : Bool) (m2 : OrderRec),
      order_handler hasRequest m2 dbOrder payment s = oh_completePhase hasRequest dbOrder [] s := by
    intro hasRequest m2
    unfold order_handler
    rw [hauth]
  constructor
  · rw [hoh]
    unfold oh_completePhase
    simp
  · intro hasRequest memOrder2
    rw [hoh]
    unfold oh_completePhase
    split
    · exact ⟨by simp, by simp, rfl⟩
    · exact ⟨by simp, by simp, rfl⟩

/-- C2 witness: a concrete already-authorized order run through the
callback-path `order_handler` again is returned unchanged with no signal. -/
theorem C2_witness :
    order_handler false ⟨1, 2, some 5⟩ ⟨1, 2, some 5⟩ none ⟨some 2, some 3⟩
      = (⟨1, 2, some 5⟩, []) :=
  (C2_order_handler_idempotent ⟨1, 2, some 5⟩ ⟨1, 2, some 5⟩ none ⟨some 2, some 3⟩
    (by decide) (fun _ => by decide)).1

/-- C4 counterexample: serializing a browser success hit before the async
callback (fresh order, authorized threshold `2`, waiting threshold `3`, gateway
id `5`): the losing callback attempt still changes the order row (it persists
the transaction id and resets the status) and still emits a notification — the
loser is not a no-op, and both serialized attempts perform a state transition. -/
theorem C4_counterexample :
    (callbackAdvance 5 none ⟨some 2, some 3⟩ (successAdvance ⟨some 2, some 3⟩ ⟨1, 1, none⟩).1).1
      ≠ (successAdvance ⟨some 2, some 3⟩ ⟨1, 1, none⟩).1 ∧
    (callbackAdvance 5 none ⟨some 2, some 3⟩ (successAdvance ⟨some 2, some 3⟩ ⟨1, 1, none⟩).1).2
      = [Sig.authorized] ∧
    (successAdvance ⟨some 2, some 3⟩ ⟨1, 1, none⟩).1 ≠ ⟨1, 1, none⟩ := by
  decide

/-- C4 (amended): the row lock serializes any two concurrent reconciliation
attempts (modeled as the two sequential executions).  In either serialization
exactly one authorize-type notification (`order_authorized`/`order_captured`)
is emitted in total; but the loser is not always a no-op: a winning browser
success hit does not persist the transaction id, so a losing callback still
performs the authorize transition and is the one that emits the notification. -/
theorem C4_lock_single_auth_signal (s : OHSettings) (db0 : OrderRec) (a qpId : Int)
    (payment : Option Payment)
    (ha : s.status_authorized = some a) (ha0 : a ≠ 0)
    (htid : db0.transaction_id = none) (hqp : qpId ≠ 0) :
    authSigCount ((callbackAdvance qpId payment s db0).2
      ++ (successAdvance s (callbackAdvance qpId payment s db0).1).2) = 1 ∧
    authSigCount ((successAdvance s db0).2
      ++ (callbackAdvance qpId payment s (successAdvance s db0).1).2) = 1 := by
  have hcbAny : ∀ (o : OrderRec), o.transaction_id = none →
      callbackAdvance qpId payment s o =
        (⟨o.pk, a, some qpId⟩,
          [if pyIsCaptured payment then Sig.captured else Sig.authorized]) := by
    intro o ho
    unfold callbackAdvance order_handler
    dsimp only
    rw [oh_authPhase_cb o payment s a qpId ha ha0 hqp ho]
    exact oh_completePhase_noRequest ..
  constructor
  · rw [hcbAny db0 htid]
    dsimp only
    unfold successAdvance order_handler
    rw [oh_authPhase_already _ _ _ _ a ha (lt_irrefl a) (by simp [optIntTruthy, hqp])]
    dsimp only
    rcases (oh_completePhase_shape true ⟨db0.pk, a, some qpId⟩ [] s).1 with h | h <;>
      rw [h] <;> cases pyIsCaptured payment <;>
      simp [authSigCount, List.countP_append, List.countP_cons]
  · unfold successAdvance order_handler
    rw [oh_authPhase_fresh_success db0 s a ha ha0 htid]
    dsimp only
    obtain ⟨hsh, htid2⟩ := oh_completePhase_shape true ⟨db0.pk, a, none⟩ [] s
    have htid2n : (oh_completePhase true ⟨db0.pk, a, none⟩ [] s).1.transaction_id = none := htid2
    rw [hcbAny _ htid2n]
    dsimp only
    rcases hsh with h | h <;> rw [h] <;> cases pyIsCaptured payment <;>
      simp [authSigCount, List.countP_append, List.countP_cons]

/-- C4 witness: the concrete callback-first serialization emits exactly one
authorize-type notification in total. -/
theorem C4_witness :
    authSigCount ((callbackAdvance 5 none ⟨some 2, some 3⟩ ⟨1, 1, none⟩).2
      ++ (successAdvance ⟨some 2, some 3⟩
          (callbackAdvance 5 none ⟨some 2, some 3⟩ ⟨1, 1, none⟩).1).2) = 1 :=
  (C4_lock_single_auth_signal ⟨some 2, some 3⟩ ⟨1, 1, none⟩ 2 5 none rfl (by decide)
    rfl (by decide)).1

/-- C3 counterexample: a callback whose checksum header does not match the body
signature but whose state is the non-actionable `"new"` is acknowledged with
`200 OK` — the state filter runs before the signature check, so not every
mismatched callback is rejected with `400`. -/
theorem C3_counterexample :
    (callback ⟨ordersOne, payTwo⟩ cbDataNew "B" "WRONG" toySign "K" false false
      ⟨some 2, some 3⟩ 9).response = .ok ∧
    "WRONG" ≠ toySign "B" "K" := by
  decide

/-- C3 (amended): the callback view answers every request with either `400` or
`200 OK`; a `400` happens only on a checksum mismatch and leaves database,
signals and subscription capture untouched; and a mismatched checksum is
rejected with `400` exactly when the request survives the earlier state filter
and order lookup (otherwise it is acknowledged with `200 OK` unverified). -/
theorem C3_signature_gate (db : ShopDB) (data : CallbackData) (rawBody header : String)
    (signFn : String → String → String) (privateKey : String)
    (auto_capture subEnabled : Bool) (s : OHSettings) (ts : Nat) :
    ((callback db data rawBody header signFn privateKey auto_capture subEnabled s ts).response
        = .badRequest ∨
      (callback db data rawBody header signFn privateKey auto_capture subEnabled s ts).response
        = .ok) ∧
    ((callback db data rawBody header signFn privateKey auto_capture subEnabled s ts).response
        = .badRequest →
      header ≠ signFn rawBody privateKey ∧
      callback db data rawBody header signFn privateKey auto_capture subEnabled s ts
        = ⟨.badRequest, db, [], false⟩) ∧
    (actionableState data.res.state auto_capture = true →
      (∃ o, findOrder db.orders (stripOrderSuffix data.order_id) = some o) →
      header ≠ signFn rawBody privateKey →
      callback db data rawBody header signFn privateKey auto_capture subEnabled s ts
        = ⟨.badRequest, db, [], false⟩) := by
  cases hA : actionableState data.res.state auto_capture with
  | false =>
    have hres : callback db data rawBody header signFn privateKey auto_capture subEnabled s ts
        = ⟨.ok, db, [], false⟩ := by
      unfold callback
      rw [hA]
      rfl
    rw [hres]
    refine ⟨Or.inr rfl, ?_, ?_⟩
    · intro h
      simp at h
    · intro h1
      cases h1
  | true =>
    cases hF : findOrder db.orders (stripOrderSuffix data.order_id) with
    | none =>
      have hres : callback db data rawBody header signFn privateKey auto_capture subEnabled s ts
          = ⟨.ok, db, [], false⟩ := by
        unfold callback
        rw [hA, hF]
        rfl
      rw [hres]
      refine ⟨Or.inr rfl, ?_, ?_⟩
      · intro h
        simp at h
      · intro _ hex _
        obtain ⟨o, ho⟩ := hex
        cases ho
    | some order =>
      cases hne : (header != signFn rawBody privateKey) with
      | true =>
        have hres : callback db data rawBody header signFn privateKey auto_capture subEnabled s ts
            = ⟨.badRequest, db, [], false⟩ := by
          unfold callback
          rw [hA, hF]
          simp [hne]
        rw [hres]
        have hneq : header ≠ signFn rawBody privateKey := by
          simpa using hne
        exact ⟨Or.inl rfl, fun _ => ⟨hneq, rfl⟩, fun _ _ _ => rfl⟩
      | false =>
        have hok : (callback db data rawBody header signFn privateKey auto_capture subEnabled
            s ts).response = .ok := by
          unfold callback
          rw [hA, hF]
          simp only [hne, Bool.not_true, Bool.false_eq_true, if_false]
          split
          · split <;> rfl
          · split
            · rfl
            · split
              · rfl
              · rfl
        have heq : header = signFn rawBody privateKey := by
          simpa using hne
        refine ⟨Or.inr hok, ?_, ?_⟩
        · intro h
          rw [hok] at h
          cases h
        · intro _ _ hneq
          exact absurd heq hneq

/-- C3 witness: a mismatched checksum on an actionable (`"processed"`) callback
for a known order is rejected with `400` and no state change. -/
theorem C3_witness :
    callback ⟨ordersOne, payTwo⟩ cbDataAtt1 "B" "WRONG" toySign "K" false false
      ⟨some 2, some 3⟩ 9 = ⟨.badRequest, ⟨ordersOne, payTwo⟩, [], false⟩ :=
  (C3_signature_gate ⟨ordersOne, payTwo⟩ cbDataAtt1 "B" "WRONG" toySign "K" false false
    ⟨some 2, some 3⟩ 9).2.2 (by decide) ⟨⟨7, 1, none⟩, by decide⟩ (by decide)

/-- C5 counterexample: a valid accepted callback whose echoed order identifier
`"7_000001"` embeds attempt 1 updates attempt 2 (the order's latest attempt) and
leaves attempt 1 untouched — the attempt suffix is stripped and discarded, so
the reconciler does not update the attempt named in the identifier. -/
theorem C5_counterexample :
    stripOrderSuffix cbDataAtt1.order_id = "7" ∧
    ((callback ⟨ordersOne, payTwo⟩ cbDataAtt1 "B" (toySign "B" "K") toySign "K" false false
        ⟨some 2, some 3⟩ 9).db.pay.payments.map (fun p => (p.id, p.accepted)))
      = [(1, false), (2, true)] := by
  decide

/-- C5 (amended): in the accepted branch the callback updates the attempt
returned by `get_order_payment` — the order's **latest** attempt (the one with
the maximal primary key), which need not be the attempt embedded in the echoed
identifier: that one is written from the payload and saved, every other attempt
row is left unchanged. -/
theorem C5_updates_latest_attempt (db : ShopDB) (data : CallbackData) (rawBody header : String)
    (signFn : String → String → String) (privateKey : String)
    (auto_capture subEnabled : Bool) (s : OHSettings) (ts : Nat) (order : OrderRec) (q : Payment)
    (hact : actionableState data.res.state auto_capture = true)
    (hfind : findOrder db.orders (stripOrderSuffix data.order_id) = some order)
    (hsig : (header != signFn rawBody privateKey) = false)
    (hnotrej : (data.res.state == some "rejected") = false)
    (hnotsub : ((data.res.type == some "Subscription") && subEnabled) = false)
    (hacc : data.res.accepted = true)
    (hq : get_order_payment db.pay order.pk = some q) :
    (∀ p ∈ db.pay.payments, p.orderId = order.pk → p.id ≤ q.id) ∧
    q ∈ db.pay.payments ∧
    (callback db data rawBody header signFn privateKey auto_capture subEnabled s ts).db.pay
      = savePayment db.pay (update_from_res q data.res ts) ∧
    (∀ p ∈ db.pay.payments, p.id ≠ q.id →
      p ∈ (callback db data rawBody header signFn privateKey auto_capture subEnabled
        s ts).db.pay.payments) ∧
    update_from_res q data.res ts
      ∈ (callback db data rawBody header signFn privateKey auto_capture subEnabled
        s ts).db.pay.payments := by
  have hqf : latestIn (db.pay.payments.filter (fun p => p.orderId == order.pk)) = some q := hq
  have hmax : ∀ p ∈ db.pay.payments, p.orderId = order.pk → p.id ≤ q.id := by
    intro p hp hord
    exact latestIn_ge _ q hqf p (List.mem_filter.mpr ⟨hp, by simp [hord]⟩)
  have hqmem : q ∈ db.pay.payments :=
    (List.mem_filter.mp (latestIn_mem _ q hqf)).1
  have hcb : callback db data rawBody header signFn privateKey auto_capture subEnabled s ts
      = ⟨.ok,
          ⟨saveOrder db.orders
              (order_handler false { order with transaction_id := some data.res.id } order
                (some (update_from_res q data.res ts)) s).1,
            savePayment db.pay (update_from_res q data.res ts)⟩,
          (order_handler false { order with transaction_id := some data.res.id } order
            (some (update_from_res q data.res ts)) s).2,
          false⟩ := by
    unfold callback
    rw [hact, hfind]
    simp only [hsig, hnotrej, hnotsub, hacc, hq, Bool.not_true, Bool.false_eq_true, if_false,
      if_true, Option.map_some']
  refine ⟨hmax, hqmem, by rw [hcb], ?_, ?_⟩
  · intro p hp hne
    rw [hcb]
    show p ∈ (savePayment db.pay (update_from_res q data.res ts)).payments
    unfold savePayment
    refine List.mem_map.mpr ⟨p, hp, ?_⟩
    rw [update_from_res_pk]
    simp [hne]
  · rw [hcb]
    show update_from_res q data.res ts ∈ (savePayment db.pay (update_from_res q data.res ts)).payments
    unfold savePayment
    refine List.mem_map.mpr ⟨q, hqmem, ?_⟩
    rw [update_from_res_pk]
    simp

/-- C5 witness: the concrete accepted callback on `payTwo` updates the latest
attempt (id 2) and leaves attempt 1 in place. -/
theorem C5_witness :
    (callback ⟨ordersOne, payTwo⟩ cbDataAtt1 "B" (toySign "B" "K") toySign "K" false false
        ⟨some 2, some 3⟩ 9).db.pay
      = savePayment payTwo (update_from_res (newPayment 2 7 ⟨10000, 2⟩ "DKK" "5678")
          cbDataAtt1.res 9) :=
  (C5_updates_latest_attempt ⟨ordersOne, payTwo⟩ cbDataAtt1 "B" (toySign "B" "K") toySign "K"
    false false ⟨some 2, some 3⟩ 9 ⟨7, 1, none⟩ (newPayment 2 7 ⟨10000, 2⟩ "DKK" "5678")
    (by decide) (by decide) (by decide) (by decide) (by decide) (by decide) (by decide)).2.2.1

/-- C10: with `QUICKPAY_TESTMODE` disabled, an authorize response reporting a
test card or a non-accepted payment makes `quickpay_payment_handler` raise its
`CheckoutError` only after it has already persisted `order.status =
SHOP_ORDER_PAID` and saved the updated payment record — the order stays marked
paid and the payment mutations stay persisted on this error path (no rollback). -/
theorem C10_rejection_after_paid_save (db : PayDB) (order : OrderRec) (amount : Dec)
    (currency last4 : String) (res : QPRes) (shopOrderPaid : Int) (ts : Nat)
    (hok : hasAcceptedPayment db order.pk = false)
    (hid : ∀ p ∈ db.payments, p.id ≠ db.nextId)
    (hrej : res.test_mode = true ∨ res.accepted = false) :
    ((quickpay_payment_handler db order amount currency last4 (some res) false shopOrderPaid
        ts).result = .error .testCard ∨
      (quickpay_payment_handler db order amount currency last4 (some res) false shopOrderPaid
        ts).result = .error .rejected) ∧
    (quickpay_payment_handler db order amount currency last4 (some res) false shopOrderPaid
      ts).savedOrder.status = shopOrderPaid ∧
    (quickpay_payment_handler db order amount currency last4 (some res) false shopOrderPaid
        ts).db.payments
      = db.payments
        ++ [update_from_res (newPayment db.nextId order.pk amount currency last4) res ts] := by
  have hcreate : create_card_payment db order.pk amount currency last4
      = .ok (newPayment db.nextId order.pk amount currency last4,
        ⟨db.payments ++ [newPayment db.nextId order.pk amount currency last4], db.nextId + 1⟩) := by
    unfold create_card_payment
    rw [hok]
    rfl
  have hu : (update_from_res (newPayment db.nextId order.pk amount currency last4) res ts).id
      = db.nextId := rfl
  have hdb2 : (savePayment
        ⟨db.payments ++ [newPayment db.nextId order.pk amount currency last4], db.nextId + 1⟩
        (update_from_res (newPayment db.nextId order.pk amount currency last4) res ts)).payments
      = db.payments
        ++ [update_from_res (newPayment db.nextId order.pk amount currency last4) res ts] := by
    unfold savePayment
    dsimp only
    rw [List.map_append]
    have hn : (newPayment db.nextId order.pk amount currency last4).id = db.nextId := rfl
    congr 1
    · apply list_map_self
      intro x hx
      simp [hu, hid x hx]
    · simp [hu, hn]
  cases hTM : res.test_mode with
  | true =>
    have hres : quickpay_payment_handler db order amount currency last4 (some res) false
        shopOrderPaid ts
        = ⟨savePayment
            ⟨db.payments ++ [newPayment db.nextId order.pk amount currency last4], db.nextId + 1⟩
            (update_from_res (newPayment db.nextId order.pk amount currency last4) res ts),
          { order with status := shopOrderPaid }, .error .testCard⟩ := by
      unfold quickpay_payment_handler
      rw [hcreate]
      dsimp only
      simp [hTM]
    rw [hres]
    exact ⟨Or.inl rfl, rfl, hdb2⟩
  | false =>
    have haccf : res.accepted = false := by
      rcases hrej with h | h
      · rw [hTM] at h
        cases h
      · exact h
    have hres : quickpay_payment_handler db order amount currency last4 (some res) false
        shopOrderPaid ts
        = ⟨savePayment
            ⟨db.payments ++ [newPayment db.nextId order.pk amount currency last4], db.nextId + 1⟩
            (update_from_res (newPayment db.nextId order.pk amount currency last4) res ts),
          { order with status := shopOrderPaid }, .error .rejected⟩ := by
      unfold quickpay_payment_handler
      rw [hcreate]
      dsimp only
      simp [hTM, haccf]
    rw [hres]
    exact ⟨Or.inr rfl, rfl, hdb2⟩

/-- C10 witness: a concrete non-testmode checkout whose authorize response is a
test card raises, yet leaves the order saved with the paid status `4` and the
updated payment row persisted. -/
theorem C10_witness :
    ((quickpay_payment_handler ⟨[], 1⟩ ⟨1, 1, none⟩ ⟨10000, 2⟩ "DKK" "1234" (some testModeRes)
        false 4 9).result = .error .testCard ∨
      (quickpay_payment_handler ⟨[], 1⟩ ⟨1, 1, none⟩ ⟨10000, 2⟩ "DKK" "1234" (some testModeRes)
        false 4 9).result = .error .rejected) ∧
    (quickpay_payment_handler ⟨[], 1⟩ ⟨1, 1, none⟩ ⟨10000, 2⟩ "DKK" "1234" (some testModeRes)
      false 4 9).savedOrder.status = 4 ∧
    (quickpay_payment_handler ⟨[], 1⟩ ⟨1, 1, none⟩ ⟨10000, 2⟩ "DKK" "1234" (some testModeRes)
        false 4 9).db.payments
      = [] ++ [update_from_res (newPayment 1 1 ⟨10000, 2⟩ "DKK" "1234") testModeRes 9] :=
  C10_rejection_after_paid_save ⟨[], 1⟩ ⟨1, 1, none⟩ ⟨10000, 2⟩ "DKK" "1234" testModeRes 4 9
    (by decide) (by intro p hp; cases hp) (Or.inl rfl)

end CartridgeQuickpay
